import Mathlib

/-!
Shallow embedding of `pykg2vec/utils/bayesian_optimizer.py`.

The module under verification is glue code: the class `BaysOptimizer`
resolves a model name to implementation classes, builds a trainer, and
drives a hyperopt search (`fmin`) over a hyperparameter search space,
recording each trial into a table that is serialized to CSV.

External collaborators (hyperopt's `fmin`/`space_eval`/`Trials`, the
`Trainer`, `KnowledgeGraph`, the dynamically imported model/config/
hyperparameter classes, and pandas) are not part of the source file; they
are modelled abstractly: module resolution, config construction and the
search spaces are supplied by an `Env` record, the trainer's training
behaviour by an `Ext` record of opaque-to-us functions on the trainer
state, and hyperopt's sampling by a `sampler` function whose adherence to
the declared distributions is an explicit hypothesis where needed.

Python attribute dictionaries (`config.__dict__`) are association lists
from attribute name to a value type `HValue`; attributes that a code path
may leave unbound (`model_obj`, `config_obj`, `best_result`) are `Option`
fields, and the Python exceptions that the code can raise are the
constructors of `InitError`.
-/

namespace Pykg2vec

/-- Values that can be stored in a config attribute dictionary or sampled
from a hyperparameter search space: numbers (Python ints/floats, modelled
exactly as rationals since the driver only copies and compares them),
strings, booleans, and filesystem paths (lists of segments). -/
inductive HValue where
  | num (q : ℚ)
  | str (s : String)
  | bool (b : Bool)
  | path (segs : List String)
  deriving DecidableEq, Repr

instance : Inhabited HValue := ⟨HValue.num 0⟩

/-- An attribute dictionary: association list from name to value. -/
abbrev AList := List (String × HValue)

/-- Set a key in an attribute dictionary: overwrite in place if present,
append otherwise (Python dict assignment). -/
def setA (l : AList) (k : String) (v : HValue) : AList :=
  if l.any (fun p => p.1 = k) then
    l.map (fun p => if p.1 = k then (k, v) else p)
  else
    l ++ [(k, v)]

/-- Look up a key in an attribute dictionary. -/
def getA (l : AList) (k : String) : Option HValue :=
  (l.find? (fun p => p.1 = k)).map Prod.snd

/-- A hyperopt sampling distribution: a categorical choice over explicit
candidates (`hp.choice`) or a continuous range (`hp.uniform` and kin,
whose support is an interval). -/
inductive SDist where
  | choice (cands : List HValue)
  | uniform (lo hi : ℚ)
  deriving DecidableEq, Repr

/-- A search space: mapping from hyperparameter name to its distribution
(`hyper_params.search_space` in the source). -/
abbrev SearchSpace := List (String × SDist)

/-- The raw value hyperopt records for one hyperparameter of one trial
(`trial['misc']['vals']`): the candidate index for a categorical
distribution, the sampled value itself for a continuous one. -/
inductive TrialVal where
  | idx (n : Nat)
  | val (q : ℚ)
  deriving DecidableEq, Repr

instance : Inhabited TrialVal := ⟨TrialVal.idx 0⟩

/-- Decode one recorded trial value back to a named value, as hyperopt's
`space_eval` does: a categorical index selects the candidate, a continuous
value stands for itself. -/
def decodeVal : SDist → TrialVal → HValue
  | .choice cands, .idx n => cands.getD n default
  | .choice _, .val q => .num q
  | .uniform _ _, .val q => .num q
  | .uniform _ _, .idx n => .num n

/-- A recorded trial value is well formed for a distribution: a categorical
index is in range, a continuous sample is within the interval. This is
hyperopt's sampling contract. -/
def validTV : SDist → TrialVal → Prop
  | .choice cands, .idx n => n < cands.length
  | .choice _, .val _ => False
  | .uniform lo hi, .val q => lo ≤ q ∧ q ≤ hi
  | .uniform _ _, .idx _ => False

/-- Membership of a named value in a distribution's support. -/
def memDist : HValue → SDist → Prop
  | v, .choice cands => v ∈ cands
  | .num q, .uniform lo hi => lo ≤ q ∧ q ≤ hi
  | .str _, .uniform _ _ => False
  | .bool _, .uniform _ _ => False
  | .path _, .uniform _ _ => False

/-- hyperopt's `space_eval`: decode a mapping of recorded trial values into
named hyperparameter values, one entry per hyperparameter of the space. -/
def space_eval (space : SearchSpace) (vals : String → Option TrialVal) :
    List (String × HValue) :=
  space.map (fun kd => (kd.1, decodeVal kd.2 ((vals kd.1).getD default)))

/-- The trainer's configuration object: the attribute dictionary (which
holds `disp_result`, `save_model`, `epochs`, `result`, and any sampled
hyperparameter written through `__dict__`) and the separate
`hyperparameters` dictionary. -/
structure Config where
  attrs : AList
  hyperparameters : AList
  deriving DecidableEq, Repr

/-- Set an attribute on the config (`config.<k> = v`, equivalently
`config.__dict__[k] = v`). -/
def Config.setAttr (c : Config) (k : String) (v : HValue) : Config :=
  { c with attrs := setA c.attrs k v }

/-- Read an attribute of the config. -/
def Config.getAttr (c : Config) (k : String) : Option HValue :=
  getA c.attrs k

/-- Set an entry of `config.hyperparameters`. -/
def Config.setHyper (c : Config) (k : String) (v : HValue) : Config :=
  { c with hyperparameters := setA c.hyperparameters k v }

/-- Read an entry of `config.hyperparameters`. -/
def Config.getHyper (c : Config) (k : String) : Option HValue :=
  getA c.hyperparameters k

/-- `config.result`: the result directory path attribute (empty path if the
attribute is absent or not a path, which does not occur for configs built
by the config classes). -/
def Config.resultPath (c : Config) : List String :=
  match getA c.attrs "result" with
  | some (.path p) => p
  | _ => []

/-- A model instance as the driver sees it: its `model_name` attribute and
the config it was constructed from. Modelled from the spec: the model
classes live in `pykg2vec.core`, outside this module; each instance
carries a `model_name` and its configuration. -/
structure Model where
  model_name : String
  config : Config
  deriving DecidableEq, Repr

/-- Constructing a model instance from a resolved model class
(`self.model_obj(config)`). Modelled from the spec: each model class names
itself and stores the config. -/
def mkModel (cls : String) (c : Config) : Model :=
  { model_name := cls, config := c }

/-- The trainer object: bound model, its `config` attribute, and the
`debug`/`tuning` flags it was constructed with. Modelled from the spec:
the trainer (in `pykg2vec.utils.trainer`, outside this module) exposes
`build_model`, `summary_hyperparameter`, `tune_model` and a `config`
attribute. -/
structure Trainer where
  model : Model
  config : Config
  debug : Bool
  tuning : Bool
  deriving DecidableEq, Repr

/-- `Trainer(model=..., debug=..., tuning=True)`. Modelled from the spec:
the trainer's `config` attribute is the configuration of the model it is
bound to. -/
def mkTrainer (m : Model) (debug tuning : Bool) : Trainer :=
  { model := m, config := m.config, debug := debug, tuning := tuning }

/-- `KnowledgeGraph(dataset=..., custom_dataset_path=...)`. Modelled from
the spec: a data accessor constructed from the dataset identifiers; its
internals are outside this module. -/
structure KnowledgeGraph where
  dataset : String
  custom_dataset_path : Option String
  deriving DecidableEq, Repr

/-- The tune-argument object handed to `BaysOptimizer`: the fields the
driver reads. -/
structure Args where
  model : String
  dataset_name : String
  dataset_path : Option String
  debug : Bool
  max_number_trials : Nat
  deriving DecidableEq, Repr

/-- The default argument object produced by `KGEArgParser().get_args([])`,
of which the driver then overwrites `dataset_name`. -/
structure KGEArgs where
  dataset_name : String
  deriving DecidableEq, Repr

/-- The external world the constructor interacts with: which modules can
be imported, the `KGEArgParser` defaults, how a config class builds a
config from arguments, and the search space carried by each
hyperparameter class. -/
structure Env where
  moduleResolves : String → Bool
  kgeDefaultArgs : KGEArgs
  configOf : String → KGEArgs → Config
  searchSpaceOf : String → SearchSpace

/-- The trainer's training behaviour (`build_model`,
`summary_hyperparameter`, `tune_model`), external to this module: each may
update the trainer's own state; `tune_model` also returns the scalar
tuning loss. -/
structure Ext where
  buildModel : Trainer → Trainer
  summaryHyperparameter : Trainer → Trainer
  tuneModel : Trainer → Trainer × ℚ

/-- `model_path` constant of the source module. -/
def model_path : String := "pykg2vec.core"

/-- `config_path` constant of the source module. -/
def config_path : String := "pykg2vec.config.config"

/-- `hyper_param_path` constant of the source module. -/
def hyper_param_path : String := "pykg2vec.config.hyperparams"

/-- The `modelMap` dictionary of the source module, in insertion order. -/
def modelMap : List (String × String) :=
  [("complex", "Complex"),
   ("conve", "ConvE"),
   ("hole", "HoLE"),
   ("distmult", "DistMult"),
   ("kg2e", "KG2E"),
   ("ntn", "NTN"),
   ("proje_pointwise", "ProjE_pointwise"),
   ("rescal", "Rescal"),
   ("rotate", "RotatE"),
   ("slm", "SLM"),
   ("sme", "SME"),
   ("transd", "TransD"),
   ("transe", "TransE"),
   ("transg", "TransG"),
   ("transh", "TransH"),
   ("transm", "TransM"),
   ("transr", "TransR"),
   ("tucker", "TuckER")]

/-- The `configMap` dictionary of the source module. -/
def configMap : List (String × String) :=
  [("complex", "ComplexConfig"),
   ("conve", "ConvEConfig"),
   ("hole", "HoLEConfig"),
   ("distmult", "DistMultConfig"),
   ("kg2e", "KG2EConfig"),
   ("ntn", "NTNConfig"),
   ("proje_pointwise", "ProjE_pointwiseConfig"),
   ("rescal", "RescalConfig"),
   ("rotate", "RotatEConfig"),
   ("slm", "SLMConfig"),
   ("sme", "SMEConfig"),
   ("transd", "TransDConfig"),
   ("transe", "TransEConfig"),
   ("transg", "TransGConfig"),
   ("transh", "TransHConfig"),
   ("transm", "TransMConfig"),
   ("transr", "TransRConfig"),
   ("tucker", "TuckERConfig")]

/-- The `hypMap` dictionary of the source module. -/
def hypMap : List (String × String) :=
  [("complex", "ComplexParams"),
   ("conve", "ConvEParams"),
   ("hole", "HoLEParams"),
   ("distmult", "DistMultParams"),
   ("kg2e", "KG2EParams"),
   ("ntn", "NTNParams"),
   ("proje_pointwise", "ProjE_pointwiseParams"),
   ("rescal", "RescalParams"),
   ("rotate", "RotatEParams"),
   ("slm", "SLMParams"),
   ("sme", "SMEParams"),
   ("transd", "TransDParams"),
   ("transe", "TransEParams"),
   ("transg", "TransGParams"),
   ("transh", "TransHParams"),
   ("transm", "TransMParams"),
   ("transr", "TransRParams"),
   ("tucker", "TuckERParams")]

/-- Python's `str.lower()`, character by character (executable, unlike
`String.toLower`, whose well-founded recursion does not reduce). -/
def strLower (s : String) : String := ⟨s.data.map Char.toLower⟩

/-- Python dictionary lookup on a string-valued association list
(`modelMap[model_name]` and kin): `none` models a `KeyError`. -/
def alookupS (l : List (String × String)) (k : String) : Option String :=
  (l.find? (fun p => p.1 = k)).map Prod.snd

/-- The denylist of models rejected at construction (source line 106). -/
def denylist : List String :=
  ["tucker", "tucker_v2", "conve", "convkb", "proje_pointwise"]

/-- The Python exceptions `BaysOptimizer`'s methods can raise:
the explicit `Exception` for denylisted models, an uncaught `KeyError`
from a dictionary lookup, and an uncaught `AttributeError` from reading an
attribute that was never bound (reading `search_space` on `None` is also
an `AttributeError`). -/
inductive InitError where
  | unsupported (msg : String)
  | keyError (k : String)
  | attributeError (a : String)
  deriving DecidableEq, Repr

/-- The `BaysOptimizer` instance state after a successful construction. -/
structure BaysOptimizer where
  args : Args
  knowledge_graph : KnowledgeGraph
  model_obj : Option String
  config_obj : Option String
  trainer : Trainer
  search_space : SearchSpace
  max_evals : Nat
  best_result : Option (List (String × TrialVal))
  deriving DecidableEq, Repr

/-- The message printed by the `ModuleNotFoundError` handler:
`"%s not implemented! Select from: %s"` with the supported class names. -/
def supportedMsg (model_name : String) : String :=
  model_name ++ " not implemented! Select from: " ++
    String.intercalate " " (modelMap.map Prod.snd)

/-- The tail of `BaysOptimizer.__init__` after the `try` block: builds
`kge_args`, reads `self.config_obj` and `self.model_obj` (raising
`AttributeError` when the `except` branch left them unbound), constructs
the trainer, reads `hyper_params.search_space` (raising `AttributeError`
on `None` when the hyperparameter import failed), and sets `max_evals`. -/
def finishInit (env : Env) (args : Args) (kg : KnowledgeGraph)
    (mo co : Option String) (hp : Option SearchSpace) (printed : List String) :
    List String × Except InitError BaysOptimizer :=
  match co with
  | none => (printed, .error (.attributeError "config_obj"))
  | some ccls =>
    let kge_args : KGEArgs := { env.kgeDefaultArgs with dataset_name := args.dataset_name }
    let config := env.configOf ccls kge_args
    match mo with
    | none => (printed, .error (.attributeError "model_obj"))
    | some mcls =>
      let trainer := mkTrainer (mkModel mcls config) args.debug true
      match hp with
      | none => (printed, .error (.attributeError "search_space"))
      | some ss =>
        (printed, .ok { args := args,
                        knowledge_graph := kg,
                        model_obj := some mcls,
                        config_obj := some ccls,
                        trainer := trainer,
                        search_space := ss,
                        max_evals := if args.debug then 1 else args.max_number_trials,
                        best_result := none })

/-- `BaysOptimizer.__init__`. Returns the list of messages printed and
either the constructed instance or the exception raised. The denylist is
checked first; then the `try` block imports the model module, the config
module and the hyperparameter module in order, binding
`model_obj`/`config_obj`/`hyper_params` as far as it gets — a module
that fails to import raises `ModuleNotFoundError`, caught and reported; a
failed dictionary lookup raises an uncaught `KeyError`. -/
def init (env : Env) (args : Args) : List String × Except InitError BaysOptimizer :=
  if strLower args.model ∈ denylist then
    ([], .error (.unsupported ("Model " ++ args.model ++
      " has not been supported in tuning hyperparameters!")))
  else
    match alookupS modelMap (strLower args.model) with
    | none => ([], .error (.keyError (strLower args.model)))
    | some cls =>
      if env.moduleResolves (model_path ++ "." ++ cls) then
        if env.moduleResolves config_path then
          match alookupS configMap (strLower args.model) with
          | none => ([], .error (.keyError (strLower args.model)))
          | some ccls =>
            if env.moduleResolves hyper_param_path then
              match alookupS hypMap (strLower args.model) with
              | none => ([], .error (.keyError (strLower args.model)))
              | some hcls =>
                finishInit env args
                  { dataset := args.dataset_name, custom_dataset_path := args.dataset_path }
                  (some cls) (some ccls) (some (env.searchSpaceOf hcls)) []
            else
              finishInit env args
                { dataset := args.dataset_name, custom_dataset_path := args.dataset_path }
                (some cls) (some ccls) none [supportedMsg (strLower args.model)]
        else
          finishInit env args
            { dataset := args.dataset_name, custom_dataset_path := args.dataset_path }
            (some cls) none none [supportedMsg (strLower args.model)]
      else
        finishInit env args
          { dataset := args.dataset_name, custom_dataset_path := args.dataset_path }
          none none none [supportedMsg (strLower args.model)]

/-- Trial status — the source only ever produces hyperopt's `STATUS_OK`. -/
inductive Status where
  | ok
  deriving DecidableEq, Repr

/-- The dictionary returned by `get_loss`: the loss and the status. -/
structure LossResult where
  loss : ℚ
  status : Status
  deriving DecidableEq, Repr

/-- The copy loop at the top of `get_loss`: write each sampled
hyperparameter into both the config's attribute dictionary and its
`hyperparameters` dictionary. -/
def copyParams (params : AList) (c : Config) : Config :=
  params.foldl (fun cc kv => (cc.setAttr kv.1 kv.2).setHyper kv.1 kv.2) c

/-- The attribute names `get_loss` forces to fixed values on every call. -/
def forcedKeys : List String :=
  ["disp_result", "disp_summary", "save_model", "test_num"]

/-- The configuration rewriting performed by `get_loss` before the trial
runs: copy each sampled hyperparameter into both the config's attribute
dictionary and its `hyperparameters` dictionary, force
`disp_result`/`disp_summary`/`save_model` to false and `test_num` to
1000, and truncate `epochs` to 1 (in both places) when in debug mode. -/
def configuredConfig (debug : Bool) (params : AList) (c : Config) : Config :=
  let c1 := copyParams params c
  let c2 := ((((c1.setAttr "disp_result" (.bool false)).setAttr
      "disp_summary" (.bool false)).setAttr
      "save_model" (.bool false)).setAttr
      "test_num" (.num 1000))
  if debug then (c2.setAttr "epochs" (.num 1)).setHyper "epochs" (.num 1) else c2

/-- `BaysOptimizer.get_loss(params)`: rewrite the trainer's config,
run `build_model`, `summary_hyperparameter` and `tune_model`, and return
the loss with a success status. -/
def get_loss (ext : Ext) (opt : BaysOptimizer) (params : AList) :
    BaysOptimizer × LossResult :=
  let c := configuredConfig opt.args.debug params opt.trainer.config
  let t1 : Trainer := { opt.trainer with config := c }
  let t2 := ext.summaryHyperparameter (ext.buildModel t1)
  let r := ext.tuneModel t2
  ({ opt with trainer := r.1 }, { loss := r.2, status := .ok })

/-- One entry of hyperopt's `trials.trials`: the recorded per-parameter
values (`trial['misc']['vals']`, first element of each singleton list) and
the trial's loss (`trial['result']['loss']`). -/
structure TrialRec where
  vals : List (String × TrialVal)
  loss : ℚ
  deriving DecidableEq, Repr

/-- The values hyperopt samples for iteration `i`: one per hyperparameter
of the space. -/
def sampleVals (space : SearchSpace) (sampler : Nat → String → TrialVal)
    (i : Nat) : List (String × TrialVal) :=
  space.map (fun kd => (kd.1, sampler i kd.1))

/-- Look up a recorded trial value by hyperparameter name. -/
def lookupTV (vals : List (String × TrialVal)) (k : String) : Option TrialVal :=
  (vals.find? (fun p => p.1 = k)).map Prod.snd

/-- The evaluation loop inside hyperopt's `fmin`: run `n` more objective
evaluations starting at iteration index `i`, sampling a point, decoding it
with `space_eval`, and calling the objective (`get_loss`, which threads
the optimizer state). Returns the final optimizer state, the list of
trials in order, and the number of objective evaluations performed. -/
def fminLoop (ext : Ext) (sampler : Nat → String → TrialVal) (space : SearchSpace) :
    Nat → Nat → BaysOptimizer → BaysOptimizer × List TrialRec × Nat
  | 0, _, opt => (opt, [], 0)
  | n + 1, i, opt =>
    let vals := sampleVals space sampler i
    let params := space_eval space (lookupTV vals)
    let res := get_loss ext opt params
    let rest := fminLoop ext sampler space n (i + 1) res.1
    (rest.1, ⟨vals, res.2.loss⟩ :: rest.2.1, rest.2.2 + 1)

/-- The best trial of a run: the first trial of minimal loss, which is
what `fmin` returns the recorded values of. -/
def argminTrial : List TrialRec → Option TrialRec
  | [] => none
  | t :: ts => some (ts.foldl (fun b t2 => if t2.loss < b.loss then t2 else b) t)

/-- The recorded values `fmin` returns: those of the best trial. -/
def bestValsOf (ts : List TrialRec) : List (String × TrialVal) :=
  match argminTrial ts with
  | some t => t.vals
  | none => []

/-- hyperopt's sampling contract: every value the sampler draws for a
hyperparameter of the space is well formed for that hyperparameter's
declared distribution. -/
def ValidSampler (sampler : Nat → String → TrialVal) (space : SearchSpace) : Prop :=
  ∀ i : Nat, ∀ kd ∈ space, validTV kd.2 (sampler i kd.1)

/-- One row of the results table: the iteration index, the decoded value
of each hyperparameter in column order, and the loss. -/
structure Row where
  iteration : Nat
  values : List HValue
  loss : ℚ
  deriving DecidableEq, Repr

/-- The observable output of one `optimize()` call: how many objective
evaluations ran, the CSV header, the table rows, the CSV file path, the
table as printed, and the decoded best point as pretty-printed. -/
structure OptimizeOut where
  evalCount : Nat
  header : List String
  table : List Row
  csvPath : List String
  printedTable : List Row
  printedBest : List (String × HValue)
  deriving DecidableEq, Repr

/-- Decoded point of a trial-values record against a search space, as in
`space_eval(self.search_space, {k: v[0] for k, v in ...vals.items()})`. -/
def translatedEval (space : SearchSpace) (vals : List (String × TrialVal)) :
    List (String × HValue) :=
  space_eval space (lookupTV vals)

/-- Look up a decoded value by name (`translated_eval[k]`). The default is
unreachable when `k` is a key of the space. -/
def lookupHV (l : List (String × HValue)) (k : String) : HValue :=
  ((l.find? (fun p => p.1 = k)).map Prod.snd).getD default

/-- `BaysOptimizer.optimize()`: run `fmin` for `max_evals` evaluations,
store the returned best values in `best_result`, build the results table
with one row per trial (columns `iteration`, each search-space key, and
`loss`), write it to `<config.result>/<model_name>/trials.csv`, print the
table, and pretty-print the decoded best point. -/
def optimize (ext : Ext) (sampler : Nat → String → TrialVal)
    (opt : BaysOptimizer) : BaysOptimizer × OptimizeOut :=
  let r := fminLoop ext sampler opt.search_space opt.max_evals 0 opt
  let opt1 := r.1
  let trials := r.2.1
  let cnt := r.2.2
  let bestvals := bestValsOf trials
  let opt2 : BaysOptimizer := { opt1 with best_result := some bestvals }
  let columns := opt2.search_space.map Prod.fst
  let table := trials.enum.map (fun it =>
    { iteration := it.1,
      values := columns.map (lookupHV (translatedEval opt2.search_space it.2.vals)),
      loss := it.2.loss })
  let path := opt2.trainer.config.resultPath ++
    [opt2.trainer.model.model_name, "trials.csv"]
  (opt2,
   { evalCount := cnt,
     header := "iteration" :: columns ++ ["loss"],
     table := table,
     csvPath := path,
     printedTable := table,
     printedBest := space_eval opt2.search_space (lookupTV bestvals) })

/-- `BaysOptimizer.return_best()`: decode `self.best_result` against the
search space; reading `best_result` before `optimize()` has assigned it
raises `AttributeError`. -/
def return_best (opt : BaysOptimizer) : Except InitError (List (String × HValue)) :=
  match opt.best_result with
  | none => .error (.attributeError "best_result")
  | some v => .ok (space_eval opt.search_space (lookupTV v))

/-! Concrete fixtures for evaluating the embedding on closed inputs. -/

/-- A concrete two-parameter search space: a categorical hidden size and a
continuous learning rate. -/
def tSpace : SearchSpace :=
  [("hidden_size", .choice [.num 8, .num 16]),
   ("learning_rate", .uniform 0 1)]

/-- Concrete attributes of a freshly built config. -/
def tConfigAttrs (d : String) : AList :=
  [("result", .path ["results"]), ("dataset_name", .str d), ("epochs", .num 100)]

/-- A concrete environment in which every module import resolves. -/
def tEnv : Env :=
  { moduleResolves := fun _ => true,
    kgeDefaultArgs := { dataset_name := "freebase15k" },
    configOf := fun _ a => { attrs := tConfigAttrs a.dataset_name, hyperparameters := [] },
    searchSpaceOf := fun _ => tSpace }

/-- The environment in which the TransE model module is not importable. -/
def tEnvNoModel : Env :=
  { tEnv with moduleResolves := fun m => m != "pykg2vec.core.TransE" }

/-- Concrete tune arguments for the supported model `TransE`, debug on. -/
def tArgs : Args :=
  { model := "TransE", dataset_name := "fb15k", dataset_path := none,
    debug := true, max_number_trials := 5 }

/-- Concrete tune arguments naming a denylisted model. -/
def tArgsDeny : Args := { tArgs with model := "ConvE" }

/-- Concrete tune arguments naming a model absent from every map. -/
def tArgsUnknown : Args := { tArgs with model := "foo" }

/-- The optimizer state that `init tEnv tArgs` produces. -/
def tOpt : BaysOptimizer :=
  { args := tArgs,
    knowledge_graph := { dataset := "fb15k", custom_dataset_path := none },
    model_obj := some "TransE",
    config_obj := some "TransEConfig",
    trainer := mkTrainer
      (mkModel "TransE" { attrs := tConfigAttrs "fb15k", hyperparameters := [] })
      true true,
    search_space := tSpace,
    max_evals := 1,
    best_result := none }

/-- Concrete trainer behaviour: building and summarising change nothing,
tuning returns a constant loss. -/
def tExt : Ext :=
  { buildModel := id, summaryHyperparameter := id, tuneModel := fun t => (t, 7) }

/-- A concrete sampler that draws within `tSpace`. -/
def tSampler : Nat → String → TrialVal :=
  fun _ k => if k = "learning_rate" then .val (1/2) else .idx 0

/-- Concrete sampled parameters for a `get_loss` call. -/
def tParams : AList := [("learning_rate", .num (1/2)), ("hidden_size", .num 8)]

/-! ### Association-list lemmas -/

theorem find?_eq_none_of_any_false (l : AList) (k : String)
    (h : l.any (fun p => p.1 = k) = false) :
    l.find? (fun p => p.1 = k) = none := by
  induction l with
  | nil => rfl
  | cons p ps ih =>
    simp only [List.any_cons, Bool.or_eq_false_iff] at h
    rw [List.find?_cons_of_neg _ (by simpa using h.1), ih h.2]

theorem find?_map_setFn_of_any (l : AList) (k : String) (v : HValue)
    (h : l.any (fun p => p.1 = k) = true) :
    (l.map (fun p => if p.1 = k then (k, v) else p)).find? (fun p => p.1 = k) =
      some (k, v) := by
  induction l with
  | nil => simp at h
  | cons p ps ih =>
    by_cases hp : p.1 = k
    · simp [hp, List.find?_cons_of_pos]
    · simp only [List.any_cons, Bool.or_eq_true] at h
      rcases h with h | h
      · exact absurd (by simpa using h) hp
      · simp only [List.map_cons, if_neg hp]
        rw [List.find?_cons_of_neg _ (by simpa using hp), ih h]

theorem getA_setA_same (l : AList) (k : String) (v : HValue) :
    getA (setA l k v) k = some v := by
  unfold setA getA
  by_cases h : l.any (fun p => p.1 = k)
  · rw [if_pos h, find?_map_setFn_of_any l k v h]
    rfl
  · rw [if_neg h, List.find?_append]
    rw [find?_eq_none_of_any_false l k (by rwa [Bool.not_eq_true] at h)]
    simp

theorem find?_map_setFn_ne (l : AList) (k k2 : String) (v : HValue) (h : k ≠ k2) :
    (l.map (fun p => if p.1 = k2 then (k2, v) else p)).find? (fun p => p.1 = k) =
      l.find? (fun p => p.1 = k) := by
  induction l with
  | nil => rfl
  | cons p ps ih =>
    by_cases hp : p.1 = k2
    · have hpk : ¬ (p.1 = k) := fun hh => h (hh ▸ hp ▸ rfl)
      simp only [List.map_cons, if_pos hp]
      rw [List.find?_cons_of_neg _ (by simpa using Ne.symm h),
        List.find?_cons_of_neg _ (by simpa using hpk)]
      exact ih
    · simp only [List.map_cons, if_neg hp]
      by_cases hpk : p.1 = k
      · rw [List.find?_cons_of_pos _ (by simpa using hpk),
          List.find?_cons_of_pos _ (by simpa using hpk)]
      · rw [List.find?_cons_of_neg _ (by simpa using hpk),
          List.find?_cons_of_neg _ (by simpa using hpk)]
        exact ih

theorem getA_setA_ne (l : AList) (k k2 : String) (v : HValue) (h : k ≠ k2) :
    getA (setA l k2 v) k = getA l k := by
  unfold setA getA
  by_cases ha : l.any (fun p => p.1 = k2)
  · rw [if_pos ha, find?_map_setFn_ne l k k2 v h]
  · rw [if_neg ha, List.find?_append]
    rw [List.find?_cons_of_neg _ (by simpa using Ne.symm h)]
    simp

theorem foldl_setA_not_mem (ps : AList) (k : String) :
    ∀ l0 : AList, k ∉ ps.map Prod.fst →
      getA (ps.foldl (fun l kv => setA l kv.1 kv.2) l0) k = getA l0 k := by
  induction ps with
  | nil => intro l0 _; rfl
  | cons p ps ih =>
    intro l0 h
    simp only [List.map_cons, List.mem_cons] at h
    push_neg at h
    rw [List.foldl_cons, ih _ h.2, getA_setA_ne _ _ _ _ h.1]

theorem foldl_setA_mem (ps : AList) (k : String) (v : HValue) :
    ∀ l0 : AList, (ps.map Prod.fst).Nodup → (k, v) ∈ ps →
      getA (ps.foldl (fun l kv => setA l kv.1 kv.2) l0) k = some v := by
  induction ps with
  | nil => intro l0 _ h; simp at h
  | cons p ps ih =>
    intro l0 hnd hmem
    rw [List.foldl_cons]
    rcases List.mem_cons.mp hmem with h | h
    · cases h.symm
      have hk : k ∉ ps.map Prod.fst :=
        (List.nodup_cons.mp (by simpa using hnd)).1
      rw [foldl_setA_not_mem ps k _ hk, getA_setA_same]
    · exact ih _ (List.nodup_cons.mp (by simpa using hnd)).2 h

/-! ### Config lemmas -/

theorem getAttr_setAttr_same (c : Config) (k : String) (v : HValue) :
    (c.setAttr k v).getAttr k = some v := getA_setA_same c.attrs k v

theorem getAttr_setAttr_ne (c : Config) (k k2 : String) (v : HValue)
    (h : k ≠ k2) : (c.setAttr k2 v).getAttr k = c.getAttr k :=
  getA_setA_ne c.attrs k k2 v h

theorem getAttr_setHyper (c : Config) (k k2 : String) (v : HValue) :
    (c.setHyper k2 v).getAttr k = c.getAttr k := rfl

theorem getHyper_setAttr (c : Config) (k k2 : String) (v : HValue) :
    (c.setAttr k2 v).getHyper k = c.getHyper k := rfl

theorem getHyper_setHyper_same (c : Config) (k : String) (v : HValue) :
    (c.setHyper k v).getHyper k = some v := getA_setA_same c.hyperparameters k v

theorem getHyper_setHyper_ne (c : Config) (k k2 : String) (v : HValue)
    (h : k ≠ k2) : (c.setHyper k2 v).getHyper k = c.getHyper k :=
  getA_setA_ne c.hyperparameters k k2 v h

theorem copyParams_attrs (ps : AList) :
    ∀ c : Config, (copyParams ps c).attrs =
      ps.foldl (fun l kv => setA l kv.1 kv.2) c.attrs := by
  induction ps with
  | nil => intro _; rfl
  | cons p ps ih =>
    intro c
    simp only [copyParams, List.foldl_cons] at ih ⊢
    exact ih _

theorem copyParams_hyper (ps : AList) :
    ∀ c : Config, (copyParams ps c).hyperparameters =
      ps.foldl (fun l kv => setA l kv.1 kv.2) c.hyperparameters := by
  induction ps with
  | nil => intro _; rfl
  | cons p ps ih =>
    intro c
    simp only [copyParams, List.foldl_cons] at ih ⊢
    exact ih _

theorem configuredConfig_getAttr_forced (debug : Bool) (params : AList) (c : Config) :
    (configuredConfig debug params c).getAttr "disp_result" = some (.bool false) ∧
    (configuredConfig debug params c).getAttr "disp_summary" = some (.bool false) ∧
    (configuredConfig debug params c).getAttr "save_model" = some (.bool false) ∧
    (configuredConfig debug params c).getAttr "test_num" = some (.num 1000) := by
  simp only [configuredConfig]
  cases debug
  · rw [if_neg (by decide)]
    refine ⟨?_, ?_, ?_, ?_⟩
    · rw [getAttr_setAttr_ne _ _ _ _ (by decide), getAttr_setAttr_ne _ _ _ _ (by decide),
        getAttr_setAttr_ne _ _ _ _ (by decide), getAttr_setAttr_same]
    · rw [getAttr_setAttr_ne _ _ _ _ (by decide), getAttr_setAttr_ne _ _ _ _ (by decide),
        getAttr_setAttr_same]
    · rw [getAttr_setAttr_ne _ _ _ _ (by decide), getAttr_setAttr_same]
    · rw [getAttr_setAttr_same]
  · rw [if_pos rfl]
    refine ⟨?_, ?_, ?_, ?_⟩
    · rw [getAttr_setHyper, getAttr_setAttr_ne _ _ _ _ (by decide),
        getAttr_setAttr_ne _ _ _ _ (by decide), getAttr_setAttr_ne _ _ _ _ (by decide),
        getAttr_setAttr_ne _ _ _ _ (by decide), getAttr_setAttr_same]
    · rw [getAttr_setHyper, getAttr_setAttr_ne _ _ _ _ (by decide),
        getAttr_setAttr_ne _ _ _ _ (by decide), getAttr_setAttr_ne _ _ _ _ (by decide),
        getAttr_setAttr_same]
    · rw [getAttr_setHyper, getAttr_setAttr_ne _ _ _ _ (by decide),
        getAttr_setAttr_ne _ _ _ _ (by decide), getAttr_setAttr_same]
    · rw [getAttr_setHyper, getAttr_setAttr_ne _ _ _ _ (by decide), getAttr_setAttr_same]

theorem configuredConfig_epochs_debug (params : AList) (c : Config) :
    (configuredConfig true params c).getAttr "epochs" = some (.num 1) ∧
    (configuredConfig true params c).getHyper "epochs" = some (.num 1) := by
  simp only [configuredConfig]
  rw [if_pos trivial]
  exact ⟨by rw [getAttr_setHyper, getAttr_setAttr_same], getHyper_setHyper_same _ _ _⟩

theorem configuredConfig_epochs_nondebug (params : AList) (c : Config)
    (h : "epochs" ∉ params.map Prod.fst) :
    (configuredConfig false params c).getAttr "epochs" = c.getAttr "epochs" := by
  simp only [configuredConfig]
  rw [if_neg (by decide)]
  rw [getAttr_setAttr_ne _ _ _ _ (by decide), getAttr_setAttr_ne _ _ _ _ (by decide),
    getAttr_setAttr_ne _ _ _ _ (by decide), getAttr_setAttr_ne _ _ _ _ (by decide)]
  show (copyParams params c).getAttr "epochs" = c.getAttr "epochs"
  unfold Config.getAttr
  rw [copyParams_attrs, foldl_setA_not_mem _ _ _ h]

theorem configuredConfig_copy (debug : Bool) (params : AList) (c : Config)
    (k : String) (v : HValue)
    (hnd : (params.map Prod.fst).Nodup) (hkv : (k, v) ∈ params)
    (hk1 : k ∉ forcedKeys) (hk2 : debug = true → k ≠ "epochs") :
    (configuredConfig debug params c).getAttr k = some v ∧
    (configuredConfig debug params c).getHyper k = some v := by
  have hne : k ≠ "disp_result" ∧ k ≠ "disp_summary" ∧ k ≠ "save_model" ∧
      k ≠ "test_num" := by
    simp only [forcedKeys, List.mem_cons, List.mem_singleton] at hk1
    push_neg at hk1
    exact ⟨hk1.1, hk1.2.1, hk1.2.2.1, hk1.2.2.2.1⟩
  simp only [configuredConfig]
  cases debug
  · rw [if_neg (by decide)]
    constructor
    · rw [getAttr_setAttr_ne _ _ _ _ hne.2.2.2, getAttr_setAttr_ne _ _ _ _ hne.2.2.1,
        getAttr_setAttr_ne _ _ _ _ hne.2.1, getAttr_setAttr_ne _ _ _ _ hne.1]
      show (copyParams params c).getAttr k = some v
      unfold Config.getAttr
      rw [copyParams_attrs, foldl_setA_mem _ _ _ _ hnd hkv]
    · rw [getHyper_setAttr, getHyper_setAttr, getHyper_setAttr, getHyper_setAttr]
      show (copyParams params c).getHyper k = some v
      unfold Config.getHyper
      rw [copyParams_hyper, foldl_setA_mem _ _ _ _ hnd hkv]
  · have hke : k ≠ "epochs" := hk2 rfl
    rw [if_pos rfl]
    constructor
    · rw [getAttr_setHyper, getAttr_setAttr_ne _ _ _ _ hke,
        getAttr_setAttr_ne _ _ _ _ hne.2.2.2, getAttr_setAttr_ne _ _ _ _ hne.2.2.1,
        getAttr_setAttr_ne _ _ _ _ hne.2.1, getAttr_setAttr_ne _ _ _ _ hne.1]
      show (copyParams params c).getAttr k = some v
      unfold Config.getAttr
      rw [copyParams_attrs, foldl_setA_mem _ _ _ _ hnd hkv]
    · rw [getHyper_setHyper_ne _ _ _ _ hke, getHyper_setAttr, getHyper_setAttr,
        getHyper_setAttr, getHyper_setAttr, getHyper_setAttr]
      show (copyParams params c).getHyper k = some v
      unfold Config.getHyper
      rw [copyParams_hyper, foldl_setA_mem _ _ _ _ hnd hkv]

/-! ### Constructor lemmas -/

theorem init_ok_fields (env : Env) (args : Args) (p : List String)
    (opt : BaysOptimizer) (h : init env args = (p, .ok opt)) :
    opt.args = args ∧
    opt.max_evals = (if args.debug then 1 else args.max_number_trials) ∧
    opt.best_result = none := by
  unfold init at h
  split at h
  · simp only [Prod.mk.injEq] at h
    exact absurd h.2 (by simp)
  · split at h
    · simp only [Prod.mk.injEq] at h
      exact absurd h.2 (by simp)
    · split at h
      · split at h
        · split at h
          · simp only [Prod.mk.injEq] at h
            exact absurd h.2 (by simp)
          · split at h
            · split at h
              · simp only [Prod.mk.injEq] at h
                exact absurd h.2 (by simp)
              · simp only [finishInit, Prod.mk.injEq] at h
                obtain ⟨h1, h2⟩ := h
                injection h2 with h3
                subst h3
                exact ⟨rfl, rfl, rfl⟩
            · simp only [finishInit, Prod.mk.injEq] at h
              exact absurd h.2 (by simp)
        · simp only [finishInit, Prod.mk.injEq] at h
          exact absurd h.2 (by simp)
      · simp only [finishInit, Prod.mk.injEq] at h
        exact absurd h.2 (by simp)

/-! ### Objective and loop lemmas -/

theorem get_loss_frame (ext : Ext) (opt : BaysOptimizer) (params : AList) :
    (get_loss ext opt params).1.search_space = opt.search_space ∧
    (get_loss ext opt params).1.max_evals = opt.max_evals ∧
    (get_loss ext opt params).1.args = opt.args ∧
    (get_loss ext opt params).1.best_result = opt.best_result ∧
    (get_loss ext opt params).1.knowledge_graph = opt.knowledge_graph ∧
    (get_loss ext opt params).1.model_obj = opt.model_obj ∧
    (get_loss ext opt params).1.config_obj = opt.config_obj :=
  ⟨rfl, rfl, rfl, rfl, rfl, rfl, rfl⟩

theorem fminLoop_count (ext : Ext) (sampler : Nat → String → TrialVal)
    (space : SearchSpace) (n : Nat) :
    ∀ (i : Nat) (opt : BaysOptimizer),
      (fminLoop ext sampler space n i opt).2.2 = n := by
  induction n with
  | zero => intro i opt; rfl
  | succ n ih =>
    intro i opt
    simp only [fminLoop]
    rw [ih]

theorem fminLoop_len (ext : Ext) (sampler : Nat → String → TrialVal)
    (space : SearchSpace) (n : Nat) :
    ∀ (i : Nat) (opt : BaysOptimizer),
      (fminLoop ext sampler space n i opt).2.1.length = n := by
  induction n with
  | zero => intro i opt; rfl
  | succ n ih =>
    intro i opt
    simp only [fminLoop, List.length_cons]
    rw [ih]

theorem fminLoop_search_space (ext : Ext) (sampler : Nat → String → TrialVal)
    (space : SearchSpace) (n : Nat) :
    ∀ (i : Nat) (opt : BaysOptimizer),
      (fminLoop ext sampler space n i opt).1.search_space = opt.search_space := by
  induction n with
  | zero => intro i opt; rfl
  | succ n ih =>
    intro i opt
    simp only [fminLoop]
    rw [ih]
    exact rfl

theorem fminLoop_vals (ext : Ext) (sampler : Nat → String → TrialVal)
    (space : SearchSpace) (n : Nat) :
    ∀ (i : Nat) (opt : BaysOptimizer) (t : TrialRec),
      t ∈ (fminLoop ext sampler space n i opt).2.1 →
      ∃ j, t.vals = sampleVals space sampler j := by
  induction n with
  | zero => intro i opt t h; simp [fminLoop] at h
  | succ n ih =>
    intro i opt t h
    simp only [fminLoop] at h
    rcases List.mem_cons.mp h with h | h
    · exact ⟨i, by rw [h]⟩
    · exact ih _ _ _ h

theorem foldl_pick_mem (ts : List TrialRec) :
    ∀ t : TrialRec,
      ts.foldl (fun b t2 => if t2.loss < b.loss then t2 else b) t ∈ t :: ts := by
  induction ts with
  | nil => intro t; exact List.mem_singleton.mpr rfl
  | cons s ts ih =>
    intro t
    rw [List.foldl_cons]
    rcases List.mem_cons.mp (ih (if s.loss < t.loss then s else t)) with h1 | h1
    · rw [h1]
      split
      · exact List.mem_cons_of_mem _ (List.mem_cons_self _ _)
      · exact List.mem_cons_self _ _
    · exact List.mem_cons_of_mem _ (List.mem_cons_of_mem _ h1)

theorem argminTrial_mem (ts : List TrialRec) (t : TrialRec)
    (h : argminTrial ts = some t) : t ∈ ts := by
  cases ts with
  | nil => simp [argminTrial] at h
  | cons s ts =>
    have h2 := foldl_pick_mem ts s
    simp only [argminTrial, Option.some.injEq] at h
    rwa [h] at h2

/-! ### Sampling and decoding lemmas -/

theorem lookupTV_sampleVals (space : SearchSpace)
    (sampler : Nat → String → TrialVal) (i : Nat) (k : String)
    (h : k ∈ space.map Prod.fst) :
    lookupTV (sampleVals space sampler i) k = some (sampler i k) := by
  induction space with
  | nil => simp at h
  | cons kd space ih =>
    simp only [List.map_cons, List.mem_cons] at h
    unfold lookupTV sampleVals
    by_cases hk : kd.1 = k
    · rw [List.map_cons, List.find?_cons_of_pos _ (by simpa using hk)]
      simp [hk]
    · rcases h with h | h
      · exact absurd h.symm hk
      · rw [List.map_cons, List.find?_cons_of_neg _ (by simpa using hk)]
        exact ih h

theorem memDist_decodeVal (d : SDist) (tv : TrialVal) (h : validTV d tv) :
    memDist (decodeVal d tv) d := by
  cases d with
  | choice cands =>
    cases tv with
    | idx n =>
      simp only [validTV] at h
      simp only [decodeVal, memDist]
      rw [List.getD_eq_getElem _ _ h]
      exact List.getElem_mem _
    | val q => simp [validTV] at h
  | uniform lo hi =>
    cases tv with
    | idx n => simp [validTV] at h
    | val q => simpa [decodeVal, memDist] using h

theorem space_eval_sample_mem (space : SearchSpace)
    (sampler : Nat → String → TrialVal) (i : Nat)
    (hv : ∀ kd ∈ space, validTV kd.2 (sampler i kd.1)) :
    ∀ kv ∈ space_eval space (lookupTV (sampleVals space sampler i)),
      ∃ d, (kv.1, d) ∈ space ∧ memDist kv.2 d := by
  intro kv hkv
  simp only [space_eval, List.mem_map] at hkv
  obtain ⟨kd, hkd, rfl⟩ := hkv
  have hk : kd.1 ∈ space.map Prod.fst := List.mem_map_of_mem _ hkd
  rw [lookupTV_sampleVals space sampler i kd.1 hk]
  refine ⟨kd.2, ?_, ?_⟩
  · simpa using hkd
  · simp only [Option.getD_some]
    exact memDist_decodeVal kd.2 _ (hv kd hkd)

/-! ### Claim theorems -/

/-- C1: for every model name whose lowercased form is in the denylist
(tucker, tucker_v2, conve, convkb, proje_pointwise), constructing
`BaysOptimizer` raises the explicit unsupported-model exception before any
other work is done: in every environment, `init` returns that error with
nothing printed and no state constructed. -/
theorem C1_denylisted_model_raises (env : Env) (args : Args)
    (h : strLower args.model ∈ denylist) :
    init env args = ([], .error (.unsupported ("Model " ++ args.model ++
      " has not been supported in tuning hyperparameters!"))) := by
  unfold init
  rw [if_pos h]

/-- Witness for C1 at the denylisted model name `ConvE`. -/
theorem C1_witness :
    strLower tArgsDeny.model ∈ denylist ∧
    init tEnv tArgsDeny = ([], .error (.unsupported ("Model " ++
      tArgsDeny.model ++ " has not been supported in tuning hyperparameters!"))) :=
  ⟨by decide, C1_denylisted_model_raises tEnv tArgsDeny (by decide)⟩

/-- C9: for every model name whose lowercased form is neither denylisted
nor a key of the model map, construction raises an uncaught `KeyError`
from the `modelMap` lookup: no supported-names message is printed. -/
theorem C9_unknown_model_keyerror (env : Env) (args : Args)
    (h1 : strLower args.model ∉ denylist)
    (h2 : alookupS modelMap (strLower args.model) = none) :
    init env args = ([], .error (.keyError (strLower args.model))) := by
  simp only [init, h1, h2, if_neg, ite_false, reduceIte]

/-- Witness for C9 at the unknown model name `foo`. -/
theorem C9_witness :
    (strLower tArgsUnknown.model ∉ denylist) ∧
    alookupS modelMap (strLower tArgsUnknown.model) = none ∧
    init tEnv tArgsUnknown =
      ([], .error (.keyError (strLower tArgsUnknown.model))) :=
  ⟨by decide, by decide,
    C9_unknown_model_keyerror tEnv tArgsUnknown (by decide) (by decide)⟩

/-- C2 counterexample: with the `TransE` model module unresolvable, the
`ModuleNotFoundError` handler prints the supported-names message, but
construction does not complete: `__init__` then raises an uncaught
`AttributeError` on the unbound `config_obj`, so no optimizer is
produced. -/
theorem C2_counterexample :
    init tEnvNoModel tArgs =
      ([supportedMsg "transe"], .error (.attributeError "config_obj")) := rfl

/-- C2 as amended: when resolving the model module fails, `__init__`
catches the `ModuleNotFoundError` and prints the message listing the
supported model names, but construction does not complete with an unbound
model: it raises an uncaught `AttributeError` when the unbound config
class is next used. -/
theorem C2_module_failure_reported_then_attribute_error (env : Env)
    (args : Args) (cls : String)
    (h1 : strLower args.model ∉ denylist)
    (h2 : alookupS modelMap (strLower args.model) = some cls)
    (h3 : env.moduleResolves (model_path ++ "." ++ cls) = false) :
    init env args = ([supportedMsg (strLower args.model)],
      .error (.attributeError "config_obj")) := by
  simp [init, h1, h2, h3, finishInit]

/-- Witness for the amended C2 at `TransE` with its module unresolvable. -/
theorem C2_amended_witness :
    (strLower tArgs.model ∉ denylist) ∧
    alookupS modelMap (strLower tArgs.model) = some "TransE" ∧
    tEnvNoModel.moduleResolves (model_path ++ "." ++ "TransE") = false ∧
    init tEnvNoModel tArgs = ([supportedMsg (strLower tArgs.model)],
      .error (.attributeError "config_obj")) :=
  ⟨by decide, by decide, by decide,
    C2_module_failure_reported_then_attribute_error tEnvNoModel tArgs "TransE"
      (by decide) (by decide) (by decide)⟩

/-- C3: for every model name of the model map whose lowercased form is not
denylisted, with the relevant modules resolvable, construction succeeds
without raising and the resulting optimizer's `trainer` attribute is a
trainer built from a freshly constructed model instance of the resolved
model class. -/
theorem C3_supported_model_builds_trainer (env : Env) (args : Args)
    (cls ccls hcls : String)
    (h0 : strLower args.model ∉ denylist)
    (h1 : alookupS modelMap (strLower args.model) = some cls)
    (h2 : alookupS configMap (strLower args.model) = some ccls)
    (h3 : alookupS hypMap (strLower args.model) = some hcls)
    (m1 : env.moduleResolves (model_path ++ "." ++ cls) = true)
    (m2 : env.moduleResolves config_path = true)
    (m3 : env.moduleResolves hyper_param_path = true) :
    init env args = ([], .ok
      { args := args,
        knowledge_graph :=
          { dataset := args.dataset_name, custom_dataset_path := args.dataset_path },
        model_obj := some cls,
        config_obj := some ccls,
        trainer := mkTrainer
          (mkModel cls (env.configOf ccls
            { env.kgeDefaultArgs with dataset_name := args.dataset_name }))
          args.debug true,
        search_space := env.searchSpaceOf hcls,
        max_evals := if args.debug then 1 else args.max_number_trials,
        best_result := none }) := by
  simp [init, h0, h1, h2, h3, m1, m2, m3, finishInit]

/-- Witness for C3 at the supported model name `TransE`. -/
theorem C3_witness : init tEnv tArgs = ([], .ok tOpt) :=
  C3_supported_model_builds_trainer tEnv tArgs "TransE" "TransEConfig"
    "TransEParams" (by decide) (by decide) (by decide) (by decide) rfl rfl rfl

/-- C4: `optimize()` performs a bounded number of objective evaluations:
for an optimizer produced by construction, exactly 1 when the debug flag
is set and exactly the configured `max_number_trials` otherwise. -/
theorem C4_bounded_evaluations (env : Env) (args : Args) (p : List String)
    (opt : BaysOptimizer) (ext : Ext) (sampler : Nat → String → TrialVal)
    (h : init env args = (p, .ok opt)) :
    (optimize ext sampler opt).2.evalCount =
      if args.debug then 1 else args.max_number_trials := by
  have hm := (init_ok_fields env args p opt h).2.1
  have h1 : (optimize ext sampler opt).2.evalCount =
      (fminLoop ext sampler opt.search_space opt.max_evals 0 opt).2.2 := rfl
  rw [h1, fminLoop_count, hm]

/-- Witness for C4 in debug mode: exactly one evaluation. -/
theorem C4_witness :
    init tEnv tArgs = ([], .ok tOpt) ∧
    (optimize tExt tSampler tOpt).2.evalCount =
      (if tArgs.debug then 1 else tArgs.max_number_trials) :=
  ⟨rfl, C4_bounded_evaluations tEnv tArgs [] tOpt tExt tSampler rfl⟩

/-- C5: the trial table built by `optimize()` has exactly one row per
objective evaluation performed by the search. -/
theorem C5_one_row_per_trial (ext : Ext) (sampler : Nat → String → TrialVal)
    (opt : BaysOptimizer) :
    (optimize ext sampler opt).2.table.length =
      (optimize ext sampler opt).2.evalCount := by
  have h1 : (optimize ext sampler opt).2.evalCount =
      (fminLoop ext sampler opt.search_space opt.max_evals 0 opt).2.2 := rfl
  have h2 : (optimize ext sampler opt).2.table.length =
      (fminLoop ext sampler opt.search_space opt.max_evals 0 opt).2.1.enum.length :=
    List.length_map _ _
  rw [h1, h2, List.enum_length, fminLoop_len, fminLoop_count]

/-- C6: `optimize()` writes the CSV at
`<config.result>/<model_name>/trials.csv`, with header `iteration`, then
one column per hyperparameter of the search space in order, then `loss`,
and prints the results table and the decoded best configuration. -/
theorem C6_csv_path_columns_and_output (ext : Ext)
    (sampler : Nat → String → TrialVal) (opt : BaysOptimizer) :
    (optimize ext sampler opt).2.csvPath =
      (optimize ext sampler opt).1.trainer.config.resultPath ++
        [(optimize ext sampler opt).1.trainer.model.model_name, "trials.csv"] ∧
    (optimize ext sampler opt).2.header =
      "iteration" :: opt.search_space.map Prod.fst ++ ["loss"] ∧
    (optimize ext sampler opt).2.printedTable = (optimize ext sampler opt).2.table ∧
    (optimize ext sampler opt).2.printedBest =
      space_eval opt.search_space
        (lookupTV (((optimize ext sampler opt).1.best_result).getD [])) := by
  have hss := fminLoop_search_space ext sampler opt.search_space opt.max_evals 0 opt
  refine ⟨rfl, ?_, rfl, ?_⟩
  · show "iteration" ::
        ((fminLoop ext sampler opt.search_space opt.max_evals 0 opt).1.search_space.map
          Prod.fst) ++ ["loss"] = _
    rw [hss]
  · show space_eval
        (fminLoop ext sampler opt.search_space opt.max_evals 0 opt).1.search_space
        (lookupTV (bestValsOf
          (fminLoop ext sampler opt.search_space opt.max_evals 0 opt).2.1)) = _
    rw [hss]
    exact rfl

/-- C7: after `optimize()` has completed (at least one trial was run, with
hyperopt sampling within the declared distributions), `return_best()`
returns the best point decoded into named values, and that point lies
within the declared search space: each named value belongs to its
hyperparameter's declared distribution. -/
theorem C7_best_point_in_search_space (ext : Ext)
    (sampler : Nat → String → TrialVal) (opt : BaysOptimizer)
    (hv : ValidSampler sampler opt.search_space)
    (hpos : 1 ≤ opt.max_evals) :
    ∃ pt, return_best (optimize ext sampler opt).1 = .ok pt ∧
      ∀ kv ∈ pt, ∃ d, (kv.1, d) ∈ opt.search_space ∧ memDist kv.2 d := by
  have hlen := fminLoop_len ext sampler opt.search_space opt.max_evals 0 opt
  have hss := fminLoop_search_space ext sampler opt.search_space opt.max_evals 0 opt
  obtain ⟨t, ht⟩ : ∃ t,
      argminTrial (fminLoop ext sampler opt.search_space opt.max_evals 0 opt).2.1 =
        some t := by
    cases hcase : (fminLoop ext sampler opt.search_space opt.max_evals 0 opt).2.1 with
    | nil =>
      rw [hcase] at hlen
      simp at hlen
      omega
    | cons s ts => exact ⟨_, rfl⟩
  obtain ⟨j, hj⟩ := fminLoop_vals ext sampler opt.search_space opt.max_evals 0 opt t
    (argminTrial_mem _ _ ht)
  have hbv : bestValsOf
      (fminLoop ext sampler opt.search_space opt.max_evals 0 opt).2.1 = t.vals := by
    unfold bestValsOf
    rw [ht]
  refine ⟨space_eval opt.search_space
    (lookupTV (sampleVals opt.search_space sampler j)), ?_, ?_⟩
  · show Except.ok (space_eval
        (fminLoop ext sampler opt.search_space opt.max_evals 0 opt).1.search_space
        (lookupTV (bestValsOf
          (fminLoop ext sampler opt.search_space opt.max_evals 0 opt).2.1))) = _
    rw [hss, hbv, hj]
  · intro kv hkv
    exact space_eval_sample_mem opt.search_space sampler j (hv j) kv hkv

/-- Witness for C7 at the concrete fixture run. -/
theorem C7_witness :
    ∃ pt, return_best (optimize tExt tSampler tOpt).1 = .ok pt ∧
      ∀ kv ∈ pt, ∃ d, (kv.1, d) ∈ tOpt.search_space ∧ memDist kv.2 d :=
  C7_best_point_in_search_space tExt tSampler tOpt
    (by
      intro i kd hkd
      simp only [tOpt, tSpace, List.mem_cons, List.not_mem_nil, or_false] at hkd
      rcases hkd with h | h
      · subst h
        simp [tSampler, validTV]
      · subst h
        norm_num [tSampler, validTV])
    (by decide)

/-- C10: `return_best()` called before `optimize()` raises
`AttributeError`: construction leaves `best_result` unbound, and only
`optimize()` assigns it. -/
theorem C10_return_best_requires_optimize (env : Env) (args : Args)
    (p : List String) (opt : BaysOptimizer) (ext : Ext)
    (sampler : Nat → String → TrialVal)
    (h : init env args = (p, .ok opt)) :
    return_best opt = .error (.attributeError "best_result") ∧
    ((optimize ext sampler opt).1.best_result).isSome = true := by
  have hb := (init_ok_fields env args p opt h).2.2
  constructor
  · unfold return_best
    rw [hb]
  · exact rfl

/-- Witness for C10 at the concrete fixture. -/
theorem C10_witness :
    return_best tOpt = .error (.attributeError "best_result") ∧
    ((optimize tExt tSampler tOpt).1.best_result).isSome = true :=
  C10_return_best_requires_optimize tEnv tArgs [] tOpt tExt tSampler rfl

/-- C8: `get_loss(params)` copies each sampled hyperparameter into the
trainer's configuration (both the attribute dictionary and the
`hyperparameters` map), forces `disp_result`/`disp_summary`/`save_model`
to false, truncates `epochs` to 1 exactly when debug mode is set, and
returns the trainer's scalar tuning loss with a success status; no
attribute of the optimizer other than the trainer (whose configuration is
rewritten and whose own state the trainer methods may change) is
modified — in particular `search_space`, `max_evals` and `args` are
unchanged. -/
theorem C8_get_loss_config_and_frame (ext : Ext) (opt : BaysOptimizer)
    (params : AList) (k : String) (v : HValue)
    (hnd : (params.map Prod.fst).Nodup) (hkv : (k, v) ∈ params)
    (hk1 : k ∉ forcedKeys) (hk2 : opt.args.debug = true → k ≠ "epochs") :
    (get_loss ext opt params).1.search_space = opt.search_space ∧
    (get_loss ext opt params).1.max_evals = opt.max_evals ∧
    (get_loss ext opt params).1.args = opt.args ∧
    (get_loss ext opt params).2.status = .ok ∧
    (get_loss ext opt params).2.loss =
      (ext.tuneModel (ext.summaryHyperparameter (ext.buildModel
        { opt.trainer with
          config := configuredConfig opt.args.debug params opt.trainer.config }))).2 ∧
    (get_loss ext opt params).1.trainer =
      (ext.tuneModel (ext.summaryHyperparameter (ext.buildModel
        { opt.trainer with
          config := configuredConfig opt.args.debug params opt.trainer.config }))).1 ∧
    (configuredConfig opt.args.debug params opt.trainer.config).getAttr
      "disp_result" = some (.bool false) ∧
    (configuredConfig opt.args.debug params opt.trainer.config).getAttr
      "disp_summary" = some (.bool false) ∧
    (configuredConfig opt.args.debug params opt.trainer.config).getAttr
      "save_model" = some (.bool false) ∧
    (configuredConfig opt.args.debug params opt.trainer.config).getAttr
      "test_num" = some (.num 1000) ∧
    (opt.args.debug = true →
      (configuredConfig opt.args.debug params opt.trainer.config).getAttr
        "epochs" = some (.num 1) ∧
      (configuredConfig opt.args.debug params opt.trainer.config).getHyper
        "epochs" = some (.num 1)) ∧
    (opt.args.debug = false → "epochs" ∉ params.map Prod.fst →
      (configuredConfig opt.args.debug params opt.trainer.config).getAttr
        "epochs" = opt.trainer.config.getAttr "epochs") ∧
    (configuredConfig opt.args.debug params opt.trainer.config).getAttr k =
      some v ∧
    (configuredConfig opt.args.debug params opt.trainer.config).getHyper k =
      some v := by
  obtain ⟨f1, f2, f3, f4⟩ :=
    configuredConfig_getAttr_forced opt.args.debug params opt.trainer.config
  obtain ⟨c1, c2⟩ :=
    configuredConfig_copy opt.args.debug params opt.trainer.config k v hnd hkv hk1 hk2
  refine ⟨rfl, rfl, rfl, rfl, rfl, rfl, f1, f2, f3, f4, ?_, ?_, c1, c2⟩
  · intro hd
    rw [hd]
    exact configuredConfig_epochs_debug params opt.trainer.config
  · intro hd hne
    rw [hd]
    exact configuredConfig_epochs_nondebug params opt.trainer.config hne

/-- Witness for C8 at the concrete fixture in debug mode, with the
sampled hyperparameter `learning_rate`. -/
theorem C8_witness :
    (get_loss tExt tOpt tParams).1.search_space = tOpt.search_space ∧
    (get_loss tExt tOpt tParams).1.max_evals = tOpt.max_evals ∧
    (get_loss tExt tOpt tParams).1.args = tOpt.args ∧
    (get_loss tExt tOpt tParams).2.status = .ok ∧
    (get_loss tExt tOpt tParams).2.loss =
      (tExt.tuneModel (tExt.summaryHyperparameter (tExt.buildModel
        { tOpt.trainer with
          config := configuredConfig tOpt.args.debug tParams tOpt.trainer.config }))).2 ∧
    (get_loss tExt tOpt tParams).1.trainer =
      (tExt.tuneModel (tExt.summaryHyperparameter (tExt.buildModel
        { tOpt.trainer with
          config := configuredConfig tOpt.args.debug tParams tOpt.trainer.config }))).1 ∧
    (configuredConfig tOpt.args.debug tParams tOpt.trainer.config).getAttr
      "disp_result" = some (.bool false) ∧
    (configuredConfig tOpt.args.debug tParams tOpt.trainer.config).getAttr
      "disp_summary" = some (.bool false) ∧
    (configuredConfig tOpt.args.debug tParams tOpt.trainer.config).getAttr
      "save_model" = some (.bool false) ∧
    (configuredConfig tOpt.args.debug tParams tOpt.trainer.config).getAttr
      "test_num" = some (.num 1000) ∧
    (tOpt.args.debug = true →
      (configuredConfig tOpt.args.debug tParams tOpt.trainer.config).getAttr
        "epochs" = some (.num 1) ∧
      (configuredConfig tOpt.args.debug tParams tOpt.trainer.config).getHyper
        "epochs" = some (.num 1)) ∧
    (tOpt.args.debug = false → "epochs" ∉ tParams.map Prod.fst →
      (configuredConfig tOpt.args.debug tParams tOpt.trainer.config).getAttr
        "epochs" = tOpt.trainer.config.getAttr "epochs") ∧
    (configuredConfig tOpt.args.debug tParams tOpt.trainer.config).getAttr
      "learning_rate" = some (.num (1/2)) ∧
    (configuredConfig tOpt.args.debug tParams tOpt.trainer.config).getHyper
      "learning_rate" = some (.num (1/2)) :=
  C8_get_loss_config_and_frame tExt tOpt tParams "learning_rate" (.num (1/2))
    (by decide) (List.mem_cons_self _ _) (by decide) (fun _ => by decide)

end Pykg2vec
